import Mathlib

/-!
Lifecycle of an ALTREP-wrapped C++ object (package altreppedpointer)

A shallow embedding of `src/pkg.cpp`.

* The C++ heap is a list of cells; the address of an object is its index.
  `new` appends a cell (addresses are never reused), `delete` marks it freed.
* R external pointers and ALTREP objects live in two tables of the state;
  a `SEXP` to one of them is its index in the table.
* Finalizers registered with `R_RegisterCFinalizerEx` are kept in a
  registration list, one entry per call.
* `Rprintf` output is recorded as a list of messages, one constructor per
  format string of the source.
* A call ends in one of three ways: it returns, it signals an R error
  condition, or it runs into undefined behaviour (a null or stale pointer is
  dereferenced, memory is freed twice, a copy leaves its buffer).
* `PROTECT` / `UNPROTECT` have no counterpart: the embedding has no garbage
  collector running in the middle of a call.
-/

namespace AltreppedPointer

/-! ## Outcomes of a call -/

/-- Kinds of undefined behaviour of the C++ code. -/
inductive UB where
  | nullDeref
  | useAfterFree
  | doubleFree
  | wildPointer
  | bufferOverrun
  | badSEXP
  deriving DecidableEq

/-- How a call can end without returning: an R error condition raised through
`Rf_error` (the source never raises one), or undefined behaviour. -/
inductive Abort where
  | rError (msg : String)
  | undefined (u : UB)
  deriving DecidableEq

/-- Result of a call: a value, or the way the call was cut short. -/
abbrev Exec := Except Abort

instance {α : Type} [DecidableEq α] : DecidableEq (Exec α) := fun x y =>
  match x, y with
  | .ok a, .ok b => if h : a = b then isTrue (by rw [h]) else isFalse (by intro e; cases e; exact h rfl)
  | .error a, .error b =>
    if h : a = b then isTrue (by rw [h]) else isFalse (by intro e; cases e; exact h rfl)
  | .ok _, .error _ => isFalse (by intro e; cases e)
  | .error _, .ok _ => isFalse (by intro e; cases e)

/-- Lines written by `Rprintf`, one constructor per format string. -/
inductive Msg where
  /-- Format "Object is being created anew\n". -/
  | createdAnew
  /-- Format "Object is being destructed\n". -/
  | destructed
  /-- Format "internal number is: %d\n". -/
  | internalNumber (number : Int)
  /-- Format "Object is being modified\n". -/
  | modified
  /-- Format "Object is being serialized\n". -/
  | serialized
  /-- Format "Object is being de-serialized\n". -/
  | deserialized
  /-- Format "Object is being duplicated (shallow)\n". -/
  | duplicatedShallow
  /-- Format "Object is being duplicated (deep)\n". -/
  | duplicatedDeep
  /-- Format "Altrepped external pointer [address:%p]\n". -/
  | inspected (address : Option Nat)
  deriving DecidableEq

/-! ## Object representation of `int` -/

/-- Byte order of the platform: `memcpy` copies the object representation. -/
inductive ByteOrder where
  | little
  | big
  deriving DecidableEq

/-- The constant `sizeof(int)`. -/
def sizeof_int : Nat := 4

/-- The values of a 32-bit signed `int`. -/
def isInt32 (v : Int) : Prop := -2147483648 ≤ v ∧ v < 2147483648

instance (v : Int) : Decidable (isInt32 v) := by
  unfold isInt32; exact inferInstance

/-- The four bytes of the two's complement representation of `v`. -/
def int_repr (bo : ByteOrder) (v : Int) : List Nat :=
  let u : Nat := (v % 4294967296).toNat
  let le : List Nat := [u % 256, u / 256 % 256, u / 65536 % 256, u / 16777216 % 256]
  match bo with
  | .little => le
  | .big => le.reverse

/-- The `int` whose representation is the first four bytes of `bs`. -/
def int_of_repr (bo : ByteOrder) (bs : List Nat) : Int :=
  let b4 : List Nat :=
    match bo with
    | .little => bs.take 4
    | .big => (bs.take 4).reverse
  let u : Nat := b4.getD 0 0 % 256 + 256 * (b4.getD 1 0 % 256)
    + 65536 * (b4.getD 2 0 % 256) + 16777216 * (b4.getD 3 0 % 256)
  if u < 2147483648 then (u : Int) else (u : Int) - 4294967296

/-- Copy of `n` bytes from `src` to the start of `dst`, as `std::memcpy`:
reading past the end of `src` or writing past the end of `dst` is undefined. -/
def memcpy (dst src : List Nat) (n : Nat) : Exec (List Nat) :=
  if src.length < n ∨ dst.length < n then .error (.undefined .bufferOverrun)
  else .ok (src.take n ++ dst.drop n)

/-! ## class CustomCppClass -/

/-- The C++ class: one private member, `int number = 0`. -/
structure CustomCppClass where
  number : Int := 0
  deriving DecidableEq

namespace CustomCppClass

/-- Default constructor `CustomCppClass()`: the printed line and the object. -/
def ctor : List Msg × CustomCppClass :=
  ([Msg.createdAnew], { number := 0 })

/-- Destructor `~CustomCppClass()`: the printed line. -/
def dtor (_self : CustomCppClass) : List Msg :=
  [Msg.destructed]

/-- Member `check_number() const`: the printed line. -/
def check_number (self : CustomCppClass) : List Msg :=
  [Msg.internalNumber self.number]

/-- Member `modify_number(int new_number)`. -/
def modify_number (self : CustomCppClass) (new_number : Int) : List Msg × CustomCppClass :=
  ([Msg.modified], { self with number := new_number })

/-- Member `get_serialized_size() const`. -/
def get_serialized_size (_self : CustomCppClass) : Nat :=
  sizeof_int

/-- Member `serialize_to_char(unsigned char *state) const`: the printed line
and the buffer after `memcpy(state, &this->number, sizeof(int))`. -/
def serialize_to_char (bo : ByteOrder) (self : CustomCppClass) (state : List Nat) :
    Exec (List Msg × List Nat) := do
  let state1 ← memcpy state (int_repr bo self.number) sizeof_int
  pure ([Msg.serialized], state1)

/-- Constructor `CustomCppClass(const unsigned char *state)`: the printed line
and the object after `memcpy(&this->number, state, sizeof(int))`. -/
def ctor_from_state (bo : ByteOrder) (state : List Nat) : Exec (List Msg × CustomCppClass) := do
  let raw ← memcpy (int_repr bo 0) state sizeof_int
  pure ([Msg.deserialized], { number := int_of_repr bo raw })

end CustomCppClass

/-! ## The R session: C++ heap, external pointers, ALTREP objects -/

/-- A cell of the C++ heap. -/
inductive Cell where
  | live (obj : CustomCppClass)
  | freed
  deriving DecidableEq

/-- C finalizers known to the package. -/
inductive CFinalizer where
  | delete_cpp_object
  deriving DecidableEq

/-- An R external pointer; `addr = none` is the null address. Its tag and
protected value are `R_NilValue` throughout. -/
structure ExtPtr where
  addr : Option Nat
  deriving DecidableEq

/-- An ALTREP object of class `altrepped_pointer_class`; `data1` refers to an
external pointer, `data2` is `R_NilValue` throughout. -/
structure Altrep where
  data1 : Nat
  deriving DecidableEq

/-- State of the session. -/
structure RState where
  heap : List Cell
  extptrs : List ExtPtr
  finalizers : List (Nat × CFinalizer)
  altreps : List Altrep
  out : List Msg
  deriving DecidableEq

/-- The session before anything was created. -/
def RState.empty : RState :=
  { heap := [], extptrs := [], finalizers := [], altreps := [], out := [] }

/-- Output of `Rprintf`. -/
def Rprintf (s : RState) (msgs : List Msg) : RState :=
  { s with out := s.out ++ msgs }

/-- The C++ expression `new T(...)` once the constructor has produced `obj`. -/
def cpp_new (s : RState) (obj : CustomCppClass) : Nat × RState :=
  (s.heap.length, { s with heap := s.heap ++ [Cell.live obj] })

/-- Read access through a pointer. -/
def deref (s : RState) (p : Option Nat) : Exec CustomCppClass :=
  match p with
  | none => .error (.undefined .nullDeref)
  | some a =>
    match s.heap[a]? with
    | some (Cell.live obj) => .ok obj
    | some Cell.freed => .error (.undefined .useAfterFree)
    | none => .error (.undefined .wildPointer)

/-- Write access through a pointer. -/
def store (s : RState) (p : Option Nat) (obj : CustomCppClass) : Exec RState :=
  match p with
  | none => .error (.undefined .nullDeref)
  | some a =>
    match s.heap[a]? with
    | some (Cell.live _) => .ok { s with heap := s.heap.set a (Cell.live obj) }
    | some Cell.freed => .error (.undefined .useAfterFree)
    | none => .error (.undefined .wildPointer)

/-- The C++ expression `delete p`: nothing for a null pointer, otherwise the
destructor runs and the cell is freed. -/
def cpp_delete (s : RState) (p : Option Nat) : Exec RState :=
  match p with
  | none => .ok s
  | some a =>
    match s.heap[a]? with
    | some (Cell.live obj) =>
      .ok { Rprintf s obj.dtor with heap := s.heap.set a Cell.freed }
    | some Cell.freed => .error (.undefined .doubleFree)
    | none => .error (.undefined .wildPointer)

/-- R API `R_MakeExternalPtr(p, R_NilValue, R_NilValue)`. -/
def R_MakeExternalPtr (s : RState) (p : Option Nat) : Nat × RState :=
  (s.extptrs.length, { s with extptrs := s.extptrs ++ [{ addr := p }] })

/-- R API `R_ExternalPtrAddr`. -/
def R_ExternalPtrAddr (s : RState) (R_ptr : Nat) : Exec (Option Nat) :=
  match s.extptrs[R_ptr]? with
  | some e => .ok e.addr
  | none => .error (.undefined .badSEXP)

/-- R API `R_RegisterCFinalizerEx(R_ptr, fin, TRUE)`. -/
def R_RegisterCFinalizerEx (s : RState) (R_ptr : Nat) (fin : CFinalizer) : RState :=
  { s with finalizers := s.finalizers ++ [(R_ptr, fin)] }

/-- R API `R_new_altrep(altrepped_pointer_class, data1, R_NilValue)`. -/
def R_new_altrep (s : RState) (data1 : Nat) : Nat × RState :=
  (s.altreps.length, { s with altreps := s.altreps ++ [{ data1 := data1 }] })

/-- R API `R_altrep_data1`. -/
def R_altrep_data1 (s : RState) (R_altrepped_obj : Nat) : Exec Nat :=
  match s.altreps[R_altrepped_obj]? with
  | some x => .ok x.data1
  | none => .error (.undefined .badSEXP)

/-- R API `Rf_allocVector(RAWSXP, n)`; the bytes are all overwritten before
they are read. -/
def Rf_allocVector_RAW (n : Nat) : List Nat :=
  List.replicate n 0

/-! ## The functions of the package -/

/-- Source: `void delete_cpp_object(SEXP R_ptr)`. -/
def delete_cpp_object (s : RState) (R_ptr : Nat) : Exec RState := do
  let ptr_to_cpp_obj ← R_ExternalPtrAddr s R_ptr
  cpp_delete s ptr_to_cpp_obj

/-- Source: `SEXP create_alrepped_cpp_object()`. -/
def create_alrepped_cpp_object (s : RState) : Exec (Nat × RState) :=
  let (msgs, obj) := CustomCppClass.ctor
  let (ptr_to_cpp_obj, s1) := cpp_new (Rprintf s msgs) obj
  let (R_ptr, s2) := R_MakeExternalPtr s1 (some ptr_to_cpp_obj)
  let s3 := R_RegisterCFinalizerEx s2 R_ptr CFinalizer.delete_cpp_object
  .ok (R_new_altrep s3 R_ptr)

/-- Source: `SEXP generate_serialized_state(SEXP R_altrepped_obj)`. -/
def generate_serialized_state (bo : ByteOrder) (s : RState) (R_altrepped_obj : Nat) :
    Exec (List Nat × RState) := do
  let R_ptr ← R_altrep_data1 s R_altrepped_obj
  let ptr_to_cpp_obj ← R_ExternalPtrAddr s R_ptr
  let obj ← deref s ptr_to_cpp_obj
  let state_size := obj.get_serialized_size
  let R_state := Rf_allocVector_RAW state_size
  let (msgs, R_state1) ← obj.serialize_to_char bo R_state
  pure (R_state1, Rprintf s msgs)

/-- Source: `SEXP deserialize_altrepped_object(SEXP cls, SEXP R_state)`; the
first argument is not used. -/
def deserialize_altrepped_object (bo : ByteOrder) (s : RState) (R_state : List Nat) :
    Exec (Nat × RState) := do
  let (msgs, obj) ← CustomCppClass.ctor_from_state bo R_state
  let (new_cpp_obj, s1) := cpp_new (Rprintf s msgs) obj
  let (R_ptr, s2) := R_MakeExternalPtr s1 (some new_cpp_obj)
  let s3 := R_RegisterCFinalizerEx s2 R_ptr CFinalizer.delete_cpp_object
  pure (R_new_altrep s3 R_ptr)

/-- Source: `R_xlen_t altrepped_object_length(SEXP R_altrepped_obj)`. -/
def altrepped_object_length (_R_altrepped_obj : Nat) : Nat :=
  1

/-- Source: `SEXP get_element_from_altrepped_obj(SEXP R_altrepped_obj, R_xlen_t idx)`. -/
def get_element_from_altrepped_obj (s : RState) (R_altrepped_obj : Nat) (_idx : Int) :
    Exec Nat :=
  R_altrep_data1 s R_altrepped_obj

/-- The statement `*new_cpp_obj = *old_cpp_obj_ptr`: both pointers are
dereferenced and the member is copied. -/
def copy_assign (s : RState) (dst src : Option Nat) : Exec RState := do
  let old ← deref s src
  store s dst old

/-- Source: `SEXP duplicate_altrepped_object(SEXP R_altrepped_obj, Rboolean deep)`. -/
def duplicate_altrepped_object (s : RState) (R_altrepped_obj : Nat) (deep : Bool) :
    Exec (Nat × RState) :=
  if !deep then do
    let s1 := Rprintf s [Msg.duplicatedShallow]
    let R_ptr ← R_altrep_data1 s1 R_altrepped_obj
    pure (R_new_altrep s1 R_ptr)
  else do
    let s1 := Rprintf s [Msg.duplicatedDeep]
    let R_ptr0 ← R_altrep_data1 s1 R_altrepped_obj
    let old_cpp_obj_ptr ← R_ExternalPtrAddr s1 R_ptr0
    let new_cpp_obj : Option Nat := none
    let s2 ← copy_assign s1 new_cpp_obj old_cpp_obj_ptr
    let (R_ptr, s3) := R_MakeExternalPtr s2 new_cpp_obj
    let s4 := R_RegisterCFinalizerEx s3 R_ptr CFinalizer.delete_cpp_object
    pure (R_new_altrep s4 R_ptr)

/-- Source: `Rboolean altrepped_object_inspect(SEXP x, ...)`. -/
def altrepped_object_inspect (s : RState) (x : Nat) : Exec (Bool × RState) := do
  let R_ptr ← R_altrep_data1 s x
  let addr ← R_ExternalPtrAddr s R_ptr
  pure (true, Rprintf s [Msg.inspected addr])

/-- Source: `SEXP object_check_number(SEXP R_altrepped_obj)`. -/
def object_check_number (s : RState) (R_altrepped_obj : Nat) : Exec RState := do
  let R_ptr ← R_altrep_data1 s R_altrepped_obj
  let ptr_to_cpp_obj ← R_ExternalPtrAddr s R_ptr
  let obj ← deref s ptr_to_cpp_obj
  pure (Rprintf s obj.check_number)

/-- Source: `SEXP object_modify_number(SEXP R_altrepped_obj, SEXP new_number)`;
`new_number` is the value `Rf_asInteger` gives. -/
def object_modify_number (s : RState) (R_altrepped_obj : Nat) (new_number : Int) :
    Exec RState := do
  let R_ptr ← R_altrep_data1 s R_altrepped_obj
  let ptr_to_cpp_obj ← R_ExternalPtrAddr s R_ptr
  let obj ← deref s ptr_to_cpp_obj
  let (msgs, obj1) := obj.modify_number new_number
  store (Rprintf s msgs) ptr_to_cpp_obj obj1

/-! ## The host: finalization, reachable sessions -/

/-- The host calls one registered finalizer on external pointer `R_ptr`. -/
def run_CFinalizer (s : RState) (R_ptr : Nat) : CFinalizer → Exec RState
  | CFinalizer.delete_cpp_object => delete_cpp_object s R_ptr

/-- The finalizers registered for external pointer `R_ptr`, oldest first. -/
def finalizers_of (s : RState) (R_ptr : Nat) : List CFinalizer :=
  (s.finalizers.filter (fun r => r.1 = R_ptr)).map Prod.snd

/-- The host finalizes external pointer `R_ptr`: every finalizer registered
for it is called once. -/
def finalize (s : RState) (R_ptr : Nat) : Exec RState :=
  (finalizers_of s R_ptr).foldlM (fun st fin => run_CFinalizer st R_ptr fin) s

/-- The host finalizes the external pointers of `hs`, in that order. -/
def finalize_all (s : RState) (hs : List Nat) : Exec RState :=
  hs.foldlM finalize s

/-- Sessions obtained from the empty one by calls that return: creation,
deserialization, shallow duplication, modification, serialization. -/
inductive Reachable (bo : ByteOrder) : RState → Prop where
  | empty : Reachable bo RState.empty
  | create {s s1 : RState} {a : Nat} :
      Reachable bo s → create_alrepped_cpp_object s = .ok (a, s1) → Reachable bo s1
  | deserialize {s s1 : RState} {a : Nat} (R_state : List Nat) :
      Reachable bo s → deserialize_altrepped_object bo s R_state = .ok (a, s1) →
      Reachable bo s1
  | duplicate_shallow {s s1 : RState} {b : Nat} (a : Nat) :
      Reachable bo s → duplicate_altrepped_object s a false = .ok (b, s1) → Reachable bo s1
  | modify {s s1 : RState} (a : Nat) (new_number : Int) :
      Reachable bo s → object_modify_number s a new_number = .ok s1 → Reachable bo s1
  | serialize {s s1 : RState} {R_state : List Nat} (a : Nat) :
      Reachable bo s → generate_serialized_state bo s a = .ok (R_state, s1) →
      Reachable bo s1

/-- Adapter `a` wraps handle `h`, which holds the address `p` of the live
object `obj`. -/
def Bound (s : RState) (a h p : Nat) (obj : CustomCppClass) : Prop :=
  s.altreps[a]? = some (Altrep.mk h) ∧ s.extptrs[h]? = some (ExtPtr.mk (some p)) ∧
    s.heap[p]? = some (Cell.live obj)

instance (s : RState) (a h p : Nat) (obj : CustomCppClass) : Decidable (Bound s a h p obj) := by
  unfold Bound; exact inferInstance

/-- No two distinct handles hold the address of the same live object. -/
def SingleOwner (s : RState) : Prop :=
  ∀ (h1 h2 p : Nat) (obj : CustomCppClass), h1 ≠ h2 →
    s.extptrs[h1]? = some (ExtPtr.mk (some p)) →
    s.extptrs[h2]? = some (ExtPtr.mk (some p)) → s.heap[p]? ≠ some (Cell.live obj)

/-- Every handle has exactly one registered finalizer, `delete_cpp_object`. -/
def SingleFinalizer (s : RState) : Prop :=
  ∀ h, h < s.extptrs.length → finalizers_of s h = [CFinalizer.delete_cpp_object]

/-- Number of destructor runs recorded in the output. -/
def destructions (s : RState) : Nat :=
  s.out.count Msg.destructed

/-- Whenever the host finalizes distinct handles, the run returns (no object
is deleted twice), one destructor runs per handle, and the freed cells are
those of the finalized handles: each object is destroyed at most once. -/
def DestroyedAtMostOnce (s : RState) : Prop :=
  ∀ hs : List Nat, hs.Nodup → (∀ h ∈ hs, h < s.extptrs.length) →
    ∃ s1, finalize_all s hs = .ok s1 ∧
      destructions s1 = destructions s + hs.length ∧
      s1.heap.length = s.heap.length ∧
      (∀ p, s1.heap[p]? = some Cell.freed ↔
        (s.heap[p]? = some Cell.freed ∨
          ∃ h ∈ hs, s.extptrs[h]? = some (ExtPtr.mk (some p))))

/-- Session `s` after an object `obj` was allocated, bound to a new external
pointer with `delete_cpp_object` as finalizer and wrapped in a new adapter,
`msg` having been printed. -/
def RState.with_new (s : RState) (obj : CustomCppClass) (msg : Msg) : RState :=
  { heap := s.heap ++ [Cell.live obj],
    extptrs := s.extptrs ++ [ExtPtr.mk (some s.heap.length)],
    finalizers := s.finalizers ++ [(s.extptrs.length, CFinalizer.delete_cpp_object)],
    altreps := s.altreps ++ [Altrep.mk s.extptrs.length],
    out := s.out ++ [msg] }

/-- Session `s` after `modify_number(v)` ran on the object at address `p`. -/
def RState.with_number (s : RState) (p : Nat) (v : Int) : RState :=
  { s with heap := s.heap.set p (Cell.live { number := v }),
           out := s.out ++ [Msg.modified] }

/-- Session `s` after the destructor ran on the object at address `p` and
its cell was freed. -/
def RState.with_freed (s : RState) (p : Nat) : RState :=
  { s with heap := s.heap.set p Cell.freed, out := s.out ++ [Msg.destructed] }

/-- Shape of the sessions reached without a release: handle `i` holds the
address `i`, has `delete_cpp_object` registered once, and every object is
live. -/
def WellFormed (s : RState) : Prop :=
  s.extptrs = (List.range s.heap.length).map (fun i => ExtPtr.mk (some i)) ∧
  s.finalizers
    = (List.range s.heap.length).map (fun i => (i, CFinalizer.delete_cpp_object)) ∧
  ∀ p, p < s.heap.length → ∃ obj, s.heap[p]? = some (Cell.live obj)

/-! ## Sample sessions -/

/-- Session after one `create_alrepped_cpp_object()`. -/
def s_created : RState :=
  { heap := [Cell.live { number := 0 }], extptrs := [{ addr := some 0 }],
    finalizers := [(0, CFinalizer.delete_cpp_object)], altreps := [{ data1 := 0 }],
    out := [Msg.createdAnew] }

/-- Session `s_created` after `delete_cpp_object` ran on its handle. -/
def s_released : RState :=
  { heap := [Cell.freed], extptrs := [{ addr := some 0 }],
    finalizers := [(0, CFinalizer.delete_cpp_object)], altreps := [{ data1 := 0 }],
    out := [Msg.createdAnew, Msg.destructed] }

/-- Session `s_created` after a shallow duplication of its adapter. -/
def s_aliased : RState :=
  { heap := [Cell.live { number := 0 }], extptrs := [{ addr := some 0 }],
    finalizers := [(0, CFinalizer.delete_cpp_object)],
    altreps := [{ data1 := 0 }, { data1 := 0 }],
    out := [Msg.createdAnew, Msg.duplicatedShallow] }

/-- Session `s_aliased` after a second `create_alrepped_cpp_object()`. -/
def s_pair : RState :=
  { heap := [Cell.live { number := 0 }, Cell.live { number := 0 }],
    extptrs := [{ addr := some 0 }, { addr := some 1 }],
    finalizers := [(0, CFinalizer.delete_cpp_object), (1, CFinalizer.delete_cpp_object)],
    altreps := [{ data1 := 0 }, { data1 := 0 }, { data1 := 1 }],
    out := [Msg.createdAnew, Msg.duplicatedShallow, Msg.createdAnew] }

/-- Session with one adapter on a handle whose address is null. -/
def s_null : RState :=
  { heap := [], extptrs := [{ addr := none }], finalizers := [],
    altreps := [{ data1 := 0 }], out := [] }

/-! ## Basic facts -/

theorem int_of_repr_int_repr (bo : ByteOrder) (v : Int) (hv : isInt32 v) :
    int_of_repr bo (int_repr bo v) = v := by
  obtain ⟨h1, h2⟩ := hv
  have key : ∀ u : Nat, u < 4294967296 →
      u % 256 + 256 * (u / 256 % 256 % 256) + 65536 * (u / 65536 % 256 % 256)
        + 16777216 * (u / 16777216 % 256 % 256) = u := by
    intro u hu; omega
  have hu : (v % 4294967296).toNat < 4294967296 := by omega
  have hk := key _ hu
  cases bo <;>
    simp only [int_of_repr, int_repr, List.take, List.reverse_cons, List.reverse_nil,
      List.nil_append, List.cons_append, List.getD_cons_zero, List.getD_cons_succ,
      Nat.mod_mod] <;>
    split <;> omega


theorem int_repr_length (bo : ByteOrder) (v : Int) : (int_repr bo v).length = 4 := by
  cases bo <;> simp [int_repr]

theorem memcpy_exact (dst src : List Nat) (hs : src.length = 4) (hd : dst.length = 4) :
    memcpy dst src sizeof_int = .ok src := by
  have h1 : List.drop 4 dst = [] := List.drop_eq_nil_of_le (by omega)
  have h2 : List.take 4 src = src := List.take_of_length_le (by omega)
  simp [memcpy, sizeof_int, hs, hd, h1, h2]

theorem memcpy_front (dst src : List Nat) (hs : 4 ≤ src.length) (hd : dst.length = 4) :
    memcpy dst src sizeof_int = .ok (src.take 4) := by
  have h1 : List.drop 4 dst = [] := List.drop_eq_nil_of_le (by omega)
  have h3 : ¬ (src.length < 4) := by omega
  simp [memcpy, sizeof_int, hd, h1, h3]

theorem memcpy_short (dst src : List Nat) (hs : src.length < 4) :
    memcpy dst src sizeof_int = .error (.undefined .bufferOverrun) := by
  simp [memcpy, sizeof_int, hs]

theorem int_of_repr_take (bo : ByteOrder) (bs : List Nat) :
    int_of_repr bo (bs.take 4) = int_of_repr bo bs := by
  simp [int_of_repr, List.take_take]

theorem int_of_repr_range (bo : ByteOrder) (bs : List Nat) : isInt32 (int_of_repr bo bs) := by
  unfold int_of_repr isInt32
  simp only []
  split <;> constructor <;> omega

theorem ctor_from_state_ok (bo : ByteOrder) (state : List Nat) (h : 4 ≤ state.length) :
    CustomCppClass.ctor_from_state bo state
      = .ok ([Msg.deserialized], { number := int_of_repr bo state }) := by
  simp [CustomCppClass.ctor_from_state, memcpy_front _ _ h (int_repr_length bo 0),
    int_of_repr_take, bind, Except.bind, pure, Except.pure]

theorem ctor_from_state_short (bo : ByteOrder) (state : List Nat) (h : state.length < 4) :
    CustomCppClass.ctor_from_state bo state = .error (.undefined .bufferOverrun) := by
  simp [CustomCppClass.ctor_from_state, memcpy_short _ _ h, bind, Except.bind]

theorem serialize_to_char_ok (bo : ByteOrder) (obj : CustomCppClass) (state : List Nat)
    (h : state.length = 4) :
    obj.serialize_to_char bo state = .ok ([Msg.serialized], int_repr bo obj.number) := by
  simp [CustomCppClass.serialize_to_char, memcpy_exact _ _ (int_repr_length bo _) h,
    bind, Except.bind, pure, Except.pure]

theorem int_of_repr_append (bo : ByteOrder) (v : Int) (hv : isInt32 v) (extra : List Nat) :
    int_of_repr bo (int_repr bo v ++ extra) = v := by
  rw [← int_of_repr_take, List.take_append_of_le_length (by rw [int_repr_length]),
    int_of_repr_take, int_of_repr_int_repr bo v hv]

/-! ## The codec -/

/-- C1. Round trip of the codec: for every 32-bit `v`, a default-constructed
object set to `v` by `modify_number` and written by `serialize_to_char` into
any buffer of `get_serialized_size()` bytes gives four bytes from which the
constructor from a buffer rebuilds an object whose number is `v`. -/
theorem C1_codec_round_trip (bo : ByteOrder) (v : Int) (buf0 : List Nat) (hv : isInt32 v)
    (hbuf : buf0.length
      = (CustomCppClass.ctor.2.modify_number v).2.get_serialized_size) :
    ∃ buf obj,
      (CustomCppClass.ctor.2.modify_number v).2.serialize_to_char bo buf0
        = .ok ([Msg.serialized], buf) ∧
      buf.length = 4 ∧
      CustomCppClass.ctor_from_state bo buf = .ok ([Msg.deserialized], obj) ∧
      obj.number = v := by
  have hb : buf0.length = 4 := hbuf
  refine ⟨int_repr bo v, { number := v }, ?_, int_repr_length bo v, ?_, rfl⟩
  · rw [serialize_to_char_ok bo _ buf0 hb]; rfl
  · rw [ctor_from_state_ok bo _ (by rw [int_repr_length]), int_of_repr_int_repr bo v hv]

/-- Witness of C1 at `v = -2`, big-endian, into a zeroed buffer. -/
theorem C1_codec_round_trip_witness :
    ∃ buf obj,
      (CustomCppClass.ctor.2.modify_number (-2)).2.serialize_to_char ByteOrder.big [0, 0, 0, 0]
        = .ok ([Msg.serialized], buf) ∧
      buf.length = 4 ∧
      CustomCppClass.ctor_from_state ByteOrder.big buf = .ok ([Msg.deserialized], obj) ∧
      obj.number = -2 :=
  C1_codec_round_trip ByteOrder.big (-2) [0, 0, 0, 0] (by decide) (by decide)

/-! ## Calls on a bound adapter -/

theorem create_eq (s : RState) :
    create_alrepped_cpp_object s
      = .ok (s.altreps.length, s.with_new { number := 0 } Msg.createdAnew) := rfl

theorem deserialize_eq (bo : ByteOrder) (s : RState) (R_state : List Nat)
    (h : 4 ≤ R_state.length) :
    deserialize_altrepped_object bo s R_state = .ok (s.altreps.length,
      s.with_new { number := int_of_repr bo R_state } Msg.deserialized) := by
  simp [deserialize_altrepped_object, ctor_from_state_ok bo R_state h, bind, Except.bind,
    pure, Except.pure, cpp_new, Rprintf, R_MakeExternalPtr, R_RegisterCFinalizerEx,
    R_new_altrep, RState.with_new]

theorem deserialize_short (bo : ByteOrder) (s : RState) (R_state : List Nat)
    (h : R_state.length < 4) :
    deserialize_altrepped_object bo s R_state = .error (.undefined .bufferOverrun) := by
  simp [deserialize_altrepped_object, ctor_from_state_short bo R_state h, bind, Except.bind]

theorem duplicate_shallow_eq (s : RState) (a h : Nat)
    (ha : s.altreps[a]? = some (Altrep.mk h)) :
    duplicate_altrepped_object s a false = .ok (s.altreps.length,
      { s with altreps := s.altreps ++ [Altrep.mk h],
               out := s.out ++ [Msg.duplicatedShallow] }) := by
  simp [duplicate_altrepped_object, R_altrep_data1, Rprintf, ha, bind, Except.bind,
    pure, Except.pure, R_new_altrep]

theorem check_number_eq (s : RState) (a h p : Nat) (obj : CustomCppClass)
    (hb : Bound s a h p obj) :
    object_check_number s a = .ok (Rprintf s [Msg.internalNumber obj.number]) := by
  obtain ⟨ha, he, hp⟩ := hb
  simp [object_check_number, R_altrep_data1, ha, R_ExternalPtrAddr, he, deref, hp,
    bind, Except.bind, pure, Except.pure, CustomCppClass.check_number]

theorem modify_number_eq (s : RState) (a h p : Nat) (obj : CustomCppClass) (v : Int)
    (hb : Bound s a h p obj) :
    object_modify_number s a v = .ok (s.with_number p v) := by
  obtain ⟨ha, he, hp⟩ := hb
  simp [object_modify_number, R_altrep_data1, ha, R_ExternalPtrAddr, he, deref, hp,
    bind, Except.bind, CustomCppClass.modify_number, store, Rprintf, RState.with_number]

theorem serialized_state_eq (bo : ByteOrder) (s : RState) (a h p : Nat)
    (obj : CustomCppClass) (hb : Bound s a h p obj) :
    generate_serialized_state bo s a
      = .ok (int_repr bo obj.number, Rprintf s [Msg.serialized]) := by
  obtain ⟨ha, he, hp⟩ := hb
  have hz : (Rf_allocVector_RAW obj.get_serialized_size).length = 4 := by
    simp [Rf_allocVector_RAW, CustomCppClass.get_serialized_size, sizeof_int]
  simp [generate_serialized_state, R_altrep_data1, ha, R_ExternalPtrAddr, he, deref, hp,
    bind, Except.bind, pure, Except.pure, serialize_to_char_ok bo obj _ hz]

theorem delete_eq (s : RState) (h p : Nat) (obj : CustomCppClass)
    (he : s.extptrs[h]? = some (ExtPtr.mk (some p)))
    (hp : s.heap[p]? = some (Cell.live obj)) :
    delete_cpp_object s h = .ok (s.with_freed p) := by
  simp [delete_cpp_object, R_ExternalPtrAddr, he, cpp_delete, hp, bind, Except.bind,
    Rprintf, CustomCppClass.dtor, RState.with_freed]

theorem getElem?_set_self_of_some {α : Type} (l : List α) (i : Nat) (x y : α)
    (h : l[i]? = some x) : (l.set i y)[i]? = some y := by
  have hi : i < l.length := by
    by_contra hc
    rw [List.getElem?_eq_none (by omega)] at h
    cases h
  simp [List.getElem?_set_self hi]

theorem bound_after_modify (s : RState) (a h p : Nat) (obj : CustomCppClass) (v : Int)
    (hb : Bound s a h p obj) :
    Bound (s.with_number p v) a h p { number := v } := by
  obtain ⟨ha, he, hp⟩ := hb
  exact ⟨ha, he, getElem?_set_self_of_some _ _ _ _ hp⟩

theorem bound_after_new (s : RState) (obj : CustomCppClass) (msg : Msg) :
    Bound (s.with_new obj msg) s.altreps.length s.extptrs.length s.heap.length obj := by
  simp [Bound, RState.with_new]

/-- C2 (as stated) fails: a buffer of five bytes is decoded without any error,
by the constructor and by `deserialize_altrepped_object`, and the object holds
the number read from the first four bytes; on a buffer of three bytes the copy
of four bytes leaves the buffer, which is undefined behaviour and not an R
error. -/
theorem C2_counterexample :
    [42, 0, 0, 0, 9].length ≠ sizeof_int ∧
    CustomCppClass.ctor_from_state ByteOrder.little [42, 0, 0, 0, 9]
      = .ok ([Msg.deserialized], { number := 42 }) ∧
    deserialize_altrepped_object ByteOrder.little RState.empty [42, 0, 0, 0, 9]
      = .ok (0, { heap := [Cell.live { number := 42 }], extptrs := [ExtPtr.mk (some 0)],
                  finalizers := [(0, CFinalizer.delete_cpp_object)],
                  altreps := [Altrep.mk 0], out := [Msg.deserialized] }) ∧
    [42, 0, 0].length ≠ sizeof_int ∧
    CustomCppClass.ctor_from_state ByteOrder.little [42, 0, 0]
      = .error (.undefined .bufferOverrun) ∧
    deserialize_altrepped_object ByteOrder.little RState.empty [42, 0, 0]
      = .error (.undefined .bufferOverrun) := by
  decide

/-- C2 (amended). Decoding validates no length. On every buffer of at least
four bytes the constructor and `deserialize_altrepped_object` return, and the
new object holds the `int` read from the first four bytes: for the four bytes
of a 32-bit `v` followed by any further bytes that number is `v`. On a buffer
of fewer than four bytes the copy reads past the end of the buffer: undefined
behaviour, no R error. -/
theorem C2_decode_unchecked (bo : ByteOrder) (s : RState) (v : Int)
    (extra long short : List Nat) (hv : isInt32 v) (hlong : 4 ≤ long.length)
    (hshort : short.length < 4) :
    CustomCppClass.ctor_from_state bo long
      = .ok ([Msg.deserialized], { number := int_of_repr bo (long.take 4) }) ∧
    (∃ s1, deserialize_altrepped_object bo s long = .ok (s.altreps.length, s1) ∧
      Bound s1 s.altreps.length s.extptrs.length s.heap.length
        { number := int_of_repr bo (long.take 4) }) ∧
    CustomCppClass.ctor_from_state bo (int_repr bo v ++ extra)
      = .ok ([Msg.deserialized], { number := v }) ∧
    (∃ s1, deserialize_altrepped_object bo s (int_repr bo v ++ extra)
        = .ok (s.altreps.length, s1) ∧
      Bound s1 s.altreps.length s.extptrs.length s.heap.length { number := v }) ∧
    CustomCppClass.ctor_from_state bo short = .error (.undefined .bufferOverrun) ∧
    deserialize_altrepped_object bo s short = .error (.undefined .bufferOverrun) := by
  have hl : 4 ≤ (int_repr bo v ++ extra).length := by
    rw [List.length_append, int_repr_length]; omega
  refine ⟨?_, ?_, ?_, ?_, ctor_from_state_short bo short hshort,
    deserialize_short bo s short hshort⟩
  · rw [ctor_from_state_ok bo long hlong, int_of_repr_take]
  · refine ⟨_, deserialize_eq bo s long hlong, ?_⟩
    rw [int_of_repr_take]; exact bound_after_new s _ _
  · rw [ctor_from_state_ok bo _ hl, int_of_repr_append bo v hv]
  · refine ⟨_, deserialize_eq bo s _ hl, ?_⟩
    rw [int_of_repr_append bo v hv]; exact bound_after_new s _ _

/-- Witness of C2 (amended): `v = 42`, one trailing byte, a three-byte buffer. -/
theorem C2_decode_unchecked_witness :
    CustomCppClass.ctor_from_state ByteOrder.little [1, 2, 3, 4, 5]
      = .ok ([Msg.deserialized],
          { number := int_of_repr ByteOrder.little ([1, 2, 3, 4, 5].take 4) }) ∧
    (∃ s1, deserialize_altrepped_object ByteOrder.little s_created [1, 2, 3, 4, 5]
        = .ok (s_created.altreps.length, s1) ∧
      Bound s1 s_created.altreps.length s_created.extptrs.length s_created.heap.length
        { number := int_of_repr ByteOrder.little ([1, 2, 3, 4, 5].take 4) }) ∧
    CustomCppClass.ctor_from_state ByteOrder.little (int_repr ByteOrder.little 42 ++ [9])
      = .ok ([Msg.deserialized], { number := 42 }) ∧
    (∃ s1, deserialize_altrepped_object ByteOrder.little s_created
        (int_repr ByteOrder.little 42 ++ [9]) = .ok (s_created.altreps.length, s1) ∧
      Bound s1 s_created.altreps.length s_created.extptrs.length s_created.heap.length
        { number := 42 }) ∧
    CustomCppClass.ctor_from_state ByteOrder.little [42, 0, 0]
      = .error (.undefined .bufferOverrun) ∧
    deserialize_altrepped_object ByteOrder.little s_created [42, 0, 0]
      = .error (.undefined .bufferOverrun) :=
  C2_decode_unchecked ByteOrder.little s_created 42 [9] [1, 2, 3, 4, 5] [42, 0, 0]
    (by decide) (by decide) (by decide)

/-! ## Duplication -/

/-- C3. Deep duplication of the adapter returned by
`create_alrepped_cpp_object()` does not return an adapter: the assignment
`*new_cpp_obj = *old_cpp_obj_ptr` goes through the null pointer of the empty
`unique_ptr`. -/
theorem C3_deep_duplicate_null_deref :
    create_alrepped_cpp_object RState.empty = .ok (0, s_created) ∧
    Bound s_created 0 0 0 { number := 0 } ∧
    duplicate_altrepped_object s_created 0 true = .error (.undefined .nullDeref) := by
  decide

/-- Deep duplication of any adapter bound to a live object dereferences the
null pointer. -/
theorem deep_duplicate_never_returns (s : RState) (a h p : Nat) (obj : CustomCppClass)
    (hb : Bound s a h p obj) :
    duplicate_altrepped_object s a true = .error (.undefined .nullDeref) := by
  obtain ⟨ha, he, hp⟩ := hb
  simp [duplicate_altrepped_object, R_altrep_data1, Rprintf, ha, R_ExternalPtrAddr, he,
    copy_assign, deref, hp, store, bind, Except.bind]

/-- C4. Shallow duplication of an adapter bound to a live object returns a
new adapter on the same handle, allocating no handle and no object; a number
written through either adapter is the number read through the other. -/
theorem C4_shallow_alias (s : RState) (a h p : Nat) (obj : CustomCppClass) (v : Int)
    (hb : Bound s a h p obj) :
    ∃ b s1, duplicate_altrepped_object s a false = .ok (b, s1) ∧
      b = s.altreps.length ∧
      R_altrep_data1 s1 a = .ok h ∧ R_altrep_data1 s1 b = .ok h ∧
      s1.extptrs = s.extptrs ∧ s1.heap = s.heap ∧
      (∃ s2, object_modify_number s1 a v = .ok s2 ∧
        object_check_number s2 b = .ok (Rprintf s2 [Msg.internalNumber v]) ∧
        object_check_number s2 a = .ok (Rprintf s2 [Msg.internalNumber v])) ∧
      (∃ s2, object_modify_number s1 b v = .ok s2 ∧
        object_check_number s2 a = .ok (Rprintf s2 [Msg.internalNumber v]) ∧
        object_check_number s2 b = .ok (Rprintf s2 [Msg.internalNumber v])) := by
  obtain ⟨ha, he, hp⟩ := hb
  have hlt : a < s.altreps.length := by
    by_contra hc
    rw [List.getElem?_eq_none (by omega)] at ha
    cases ha
  have ha1 : (s.altreps ++ [Altrep.mk h])[a]? = some (Altrep.mk h) := by
    rw [List.getElem?_append_left hlt]; exact ha
  have hb1 : (s.altreps ++ [Altrep.mk h])[s.altreps.length]? = some (Altrep.mk h) := by
    simp
  refine ⟨_, _, duplicate_shallow_eq s a h ha, rfl, ?_, ?_, rfl, rfl, ?_, ?_⟩
  · simp [R_altrep_data1, ha1]
  · simp [R_altrep_data1]
  · refine ⟨_, modify_number_eq _ a h p obj v ⟨ha1, he, hp⟩, ?_, ?_⟩
    · exact check_number_eq _ _ h p { number := v }
        ⟨hb1, he, getElem?_set_self_of_some _ _ _ _ hp⟩
    · exact check_number_eq _ _ h p { number := v }
        ⟨ha1, he, getElem?_set_self_of_some _ _ _ _ hp⟩
  · refine ⟨_, modify_number_eq _ _ h p obj v ⟨hb1, he, hp⟩, ?_, ?_⟩
    · exact check_number_eq _ _ h p { number := v }
        ⟨ha1, he, getElem?_set_self_of_some _ _ _ _ hp⟩
    · exact check_number_eq _ _ h p { number := v }
        ⟨hb1, he, getElem?_set_self_of_some _ _ _ _ hp⟩

/-- Witness of C4 on the session after one creation, with `v = 7`. -/
theorem C4_shallow_alias_witness :
    ∃ b s1, duplicate_altrepped_object s_created 0 false = .ok (b, s1) ∧
      b = s_created.altreps.length ∧
      R_altrep_data1 s1 0 = .ok 0 ∧ R_altrep_data1 s1 b = .ok 0 ∧
      s1.extptrs = s_created.extptrs ∧ s1.heap = s_created.heap ∧
      (∃ s2, object_modify_number s1 0 7 = .ok s2 ∧
        object_check_number s2 b = .ok (Rprintf s2 [Msg.internalNumber 7]) ∧
        object_check_number s2 0 = .ok (Rprintf s2 [Msg.internalNumber 7])) ∧
      (∃ s2, object_modify_number s1 b 7 = .ok s2 ∧
        object_check_number s2 0 = .ok (Rprintf s2 [Msg.internalNumber 7]) ∧
        object_check_number s2 b = .ok (Rprintf s2 [Msg.internalNumber 7])) :=
  C4_shallow_alias s_created 0 0 0 { number := 0 } 7 (by decide)

/-! ## Release -/

theorem destructions_after_delete (s : RState) (p : Nat) :
    destructions (s.with_freed p) = destructions s + 1 := by
  simp [destructions, RState.with_freed, List.count_append]

/-- A `delete_cpp_object` that returns the session unchanged ran on a handle
whose address is null. -/
theorem delete_noop_inv (t : RState) (k : Nat) (hok : delete_cpp_object t k = .ok t) :
    t.extptrs[k]? = some (ExtPtr.mk none) := by
  unfold delete_cpp_object R_ExternalPtrAddr at hok
  cases he : t.extptrs[k]? with
  | none => simp [he, bind, Except.bind] at hok
  | some e =>
    cases e with
    | mk addr =>
      cases addr with
      | none => rfl
      | some p =>
        cases hc : t.heap[p]? with
        | none => simp [he, hc, cpp_delete, bind, Except.bind] at hok
        | some c =>
          cases c with
          | freed => simp [he, hc, cpp_delete, bind, Except.bind] at hok
          | live obj =>
            simp [he, hc, cpp_delete, bind, Except.bind, Rprintf,
              CustomCppClass.dtor] at hok
            have hlen := congrArg (fun r => r.out.length) hok
            simp at hlen

/-- C5 (as stated) fails: on the bound handle of the session after one
creation the first `delete_cpp_object` destroys the object, and the second one
deletes the same address again, which is undefined behaviour and no no-op. -/
theorem C5_counterexample :
    Bound s_created 0 0 0 { number := 0 } ∧
    delete_cpp_object s_created 0 = .ok s_released ∧
    delete_cpp_object s_released 0 = .error (.undefined .doubleFree) := by
  decide

/-- C5 (amended). On a handle holding the address of a live object,
`delete_cpp_object` runs the destructor once and frees the object, and leaves
the address stored in the handle as it was; a second `delete_cpp_object` on
the same handle deletes that address again (undefined behaviour).
In any session `delete_cpp_object` returns with the session unchanged exactly
on a handle whose address is null: on every other handle, one released
earlier included, it either destroys an object or does not return. -/
theorem C5_release_not_idempotent (s : RState) (h p : Nat) (obj : CustomCppClass)
    (he : s.extptrs[h]? = some (ExtPtr.mk (some p)))
    (hp : s.heap[p]? = some (Cell.live obj)) :
    (∃ s1, delete_cpp_object s h = .ok s1 ∧
      destructions s1 = destructions s + 1 ∧
      s1.heap = s.heap.set p Cell.freed ∧
      s1.heap[p]? = some Cell.freed ∧
      s1.extptrs[h]? = some (ExtPtr.mk (some p)) ∧
      delete_cpp_object s1 h = .error (.undefined .doubleFree)) ∧
    (∀ (t : RState) (k : Nat), t.extptrs[k]? = some (ExtPtr.mk none) →
      delete_cpp_object t k = .ok t) ∧
    (∀ (t : RState) (k : Nat), delete_cpp_object t k = .ok t →
      t.extptrs[k]? = some (ExtPtr.mk none)) := by
  have hf : (s.heap.set p Cell.freed)[p]? = some Cell.freed :=
    getElem?_set_self_of_some _ _ _ _ hp
  refine ⟨⟨_, delete_eq s h p obj he hp, destructions_after_delete s p, rfl, hf, he, ?_⟩,
    ?_, delete_noop_inv⟩
  · simp [delete_cpp_object, R_ExternalPtrAddr, he, cpp_delete, hf, bind, Except.bind,
      RState.with_freed]
  · intro t k hk
    simp [delete_cpp_object, R_ExternalPtrAddr, hk, cpp_delete, bind, Except.bind]

/-- Witness of C5 (amended) on the session after one creation. -/
theorem C5_release_not_idempotent_witness :
    (∃ s1, delete_cpp_object s_created 0 = .ok s1 ∧
      destructions s1 = destructions s_created + 1 ∧
      s1.heap = s_created.heap.set 0 Cell.freed ∧
      s1.heap[0]? = some Cell.freed ∧
      s1.extptrs[0]? = some (ExtPtr.mk (some 0)) ∧
      delete_cpp_object s1 0 = .error (.undefined .doubleFree)) ∧
    (∀ (t : RState) (k : Nat), t.extptrs[k]? = some (ExtPtr.mk none) →
      delete_cpp_object t k = .ok t) ∧
    (∀ (t : RState) (k : Nat), delete_cpp_object t k = .ok t →
      t.extptrs[k]? = some (ExtPtr.mk none)) :=
  C5_release_not_idempotent s_created 0 0 { number := 0 } (by decide) (by decide)

/-! ## The list interface -/

/-- C6 (as stated) fails: element access at index 1, and at index -1, returns
the wrapped handle like index 0 does. -/
theorem C6_counterexample :
    get_element_from_altrepped_obj s_created 0 1 = .ok 0 ∧
    get_element_from_altrepped_obj s_created 0 (-1) = .ok 0 ∧
    get_element_from_altrepped_obj s_created 0 0 = .ok 0 := by
  decide

/-- C6 (amended). For every adapter and every index, zero or not,
`get_element_from_altrepped_obj` returns the wrapped handle (the `data1`
slot) and leaves the session as it is; the index is not examined. -/
theorem C6_element_any_index (s : RState) (a h : Nat) (idx : Int)
    (ha : s.altreps[a]? = some (Altrep.mk h)) :
    get_element_from_altrepped_obj s a idx = .ok h := by
  simp [get_element_from_altrepped_obj, R_altrep_data1, ha]

/-- Witness of C6 (amended) at index 5. -/
theorem C6_element_any_index_witness :
    get_element_from_altrepped_obj s_created 0 5 = .ok 0 :=
  C6_element_any_index s_created 0 0 5 (by decide)

/-- C9. `altrepped_object_length` is 1 for every adapter: it reads neither its
argument nor the session, so the state of the handle, and the call the adapter
comes from, play no part. -/
theorem C9_length_is_one (R_altrepped_obj : Nat) :
    altrepped_object_length R_altrepped_obj = 1 := rfl

/-! ## Handles that are not bound -/

/-- C7 (as stated) fails: after `delete_cpp_object` ran on the handle of the
session after one creation, the three calls go through the stale address, and
on a handle with a null address through the null pointer; no call ends in an
R error. -/
theorem C7_counterexample :
    delete_cpp_object s_created 0 = .ok s_released ∧
    object_check_number s_released 0 = .error (.undefined .useAfterFree) ∧
    object_modify_number s_released 0 7 = .error (.undefined .useAfterFree) ∧
    generate_serialized_state ByteOrder.little s_released 0
      = .error (.undefined .useAfterFree) ∧
    object_check_number s_null 0 = .error (.undefined .nullDeref) ∧
    object_modify_number s_null 0 7 = .error (.undefined .nullDeref) ∧
    generate_serialized_state ByteOrder.little s_null 0
      = .error (.undefined .nullDeref) := by
  decide

/-- C7 (amended). `object_check_number`, `object_modify_number` and
`generate_serialized_state` validate no handle: they dereference the address
stored in it. On a handle whose address is null that is a null dereference, on
a handle whose object was freed a use after free, and so it is on a bound
handle once `delete_cpp_object` ran on it; none of them ends in an R error. -/
theorem C7_unchecked_dereference (bo : ByteOrder) (s : RState) (a h : Nat) (v : Int)
    (ha : s.altreps[a]? = some (Altrep.mk h)) :
    (s.extptrs[h]? = some (ExtPtr.mk none) →
      object_check_number s a = .error (.undefined .nullDeref) ∧
      object_modify_number s a v = .error (.undefined .nullDeref) ∧
      generate_serialized_state bo s a = .error (.undefined .nullDeref)) ∧
    (∀ p, s.extptrs[h]? = some (ExtPtr.mk (some p)) → s.heap[p]? = some Cell.freed →
      object_check_number s a = .error (.undefined .useAfterFree) ∧
      object_modify_number s a v = .error (.undefined .useAfterFree) ∧
      generate_serialized_state bo s a = .error (.undefined .useAfterFree)) ∧
    (∀ p obj, s.extptrs[h]? = some (ExtPtr.mk (some p)) →
      s.heap[p]? = some (Cell.live obj) →
      ∃ s1, delete_cpp_object s h = .ok s1 ∧
        object_check_number s1 a = .error (.undefined .useAfterFree) ∧
        object_modify_number s1 a v = .error (.undefined .useAfterFree) ∧
        generate_serialized_state bo s1 a = .error (.undefined .useAfterFree)) := by
  refine ⟨?_, ?_, ?_⟩
  · intro he
    simp [object_check_number, object_modify_number, generate_serialized_state,
      R_altrep_data1, ha, R_ExternalPtrAddr, he, deref, bind, Except.bind]
  · intro p he hp
    simp [object_check_number, object_modify_number, generate_serialized_state,
      R_altrep_data1, ha, R_ExternalPtrAddr, he, deref, hp, bind, Except.bind]
  · intro p obj he hp
    have hf : (s.heap.set p Cell.freed)[p]? = some Cell.freed :=
      getElem?_set_self_of_some _ _ _ _ hp
    refine ⟨_, delete_eq s h p obj he hp, ?_⟩
    simp [object_check_number, object_modify_number, generate_serialized_state,
      R_altrep_data1, ha, R_ExternalPtrAddr, he, deref, hf, bind, Except.bind,
      RState.with_freed]

/-- Witness of C7 (amended) on the session after one creation, with `v = 7`. -/
theorem C7_unchecked_dereference_witness :
    (s_created.extptrs[0]? = some (ExtPtr.mk none) →
      object_check_number s_created 0 = .error (.undefined .nullDeref) ∧
      object_modify_number s_created 0 7 = .error (.undefined .nullDeref) ∧
      generate_serialized_state ByteOrder.little s_created 0
        = .error (.undefined .nullDeref)) ∧
    (∀ p, s_created.extptrs[0]? = some (ExtPtr.mk (some p)) →
      s_created.heap[p]? = some Cell.freed →
      object_check_number s_created 0 = .error (.undefined .useAfterFree) ∧
      object_modify_number s_created 0 7 = .error (.undefined .useAfterFree) ∧
      generate_serialized_state ByteOrder.little s_created 0
        = .error (.undefined .useAfterFree)) ∧
    (∀ p obj, s_created.extptrs[0]? = some (ExtPtr.mk (some p)) →
      s_created.heap[p]? = some (Cell.live obj) →
      ∃ s1, delete_cpp_object s_created 0 = .ok s1 ∧
        object_check_number s1 0 = .error (.undefined .useAfterFree) ∧
        object_modify_number s1 0 7 = .error (.undefined .useAfterFree) ∧
        generate_serialized_state ByteOrder.little s1 0
          = .error (.undefined .useAfterFree)) :=
  C7_unchecked_dereference ByteOrder.little s_created 0 0 7 (by decide)

/-! ## Serialization of an adapter -/

theorem getElem?_lt_of_eq_some {α : Type} (l : List α) (i : Nat) (x : α)
    (h : l[i]? = some x) : i < l.length := by
  by_contra hc
  rw [List.getElem?_eq_none (by omega)] at h
  cases h

theorem bound_new_other (s : RState) (a h p : Nat) (obj obj1 : CustomCppClass) (msg : Msg)
    (hb : Bound s a h p obj) : Bound (s.with_new obj1 msg) a h p obj := by
  obtain ⟨ha, he, hp⟩ := hb
  refine ⟨?_, ?_, ?_⟩
  · show (s.altreps ++ _)[a]? = _
    rw [List.getElem?_append_left (getElem?_lt_of_eq_some _ _ _ ha)]; exact ha
  · show (s.extptrs ++ _)[h]? = _
    rw [List.getElem?_append_left (getElem?_lt_of_eq_some _ _ _ he)]; exact he
  · show (s.heap ++ _)[p]? = _
    rw [List.getElem?_append_left (getElem?_lt_of_eq_some _ _ _ hp)]; exact hp

theorem bound_number_other (s : RState) (a h p q : Nat) (obj : CustomCppClass) (v : Int)
    (hb : Bound s a h p obj) (hq : q ≠ p) : Bound (s.with_number q v) a h p obj := by
  obtain ⟨ha, he, hp⟩ := hb
  refine ⟨ha, he, ?_⟩
  show (s.heap.set q _)[p]? = _
  rw [List.getElem?_set_ne hq]; exact hp

theorem bound_Rprintf (s : RState) (a h p : Nat) (obj : CustomCppClass) (msgs : List Msg)
    (hb : Bound s a h p obj) : Bound (Rprintf s msgs) a h p obj := hb


/-- C8. The scenario on adapters, from any session and for every 32-bit `v`:
creation gives an adapter whose number reads 0; after `object_modify_number`
with `v`, `generate_serialized_state` returns four bytes and the number still
reads `v`; `deserialize_altrepped_object` on those bytes returns another
adapter, on a handle and an object that did not exist before, whose number
reads `v`; a number `w` written afterwards through one of the two adapters is
read through that one, and the other one still reads `v`. -/
theorem C8_adapter_scenario (bo : ByteOrder) (s : RState) (v w : Int) (hv : isInt32 v) :
    ∃ a s1, create_alrepped_cpp_object s = .ok (a, s1) ∧
      object_check_number s1 a = .ok (Rprintf s1 [Msg.internalNumber 0]) ∧
    ∃ s2, object_modify_number s1 a v = .ok s2 ∧
    ∃ R_state s3, generate_serialized_state bo s2 a = .ok (R_state, s3) ∧
      R_state.length = 4 ∧
      object_check_number s3 a = .ok (Rprintf s3 [Msg.internalNumber v]) ∧
    ∃ b s4, deserialize_altrepped_object bo s3 R_state = .ok (b, s4) ∧
      b ≠ a ∧
    ∃ ha pa hb pb, Bound s4 a ha pa { number := v } ∧ Bound s4 b hb pb { number := v } ∧
      ha ≠ hb ∧ pa ≠ pb ∧ s3.extptrs[hb]? = none ∧ s3.heap[pb]? = none ∧
      object_check_number s4 a = .ok (Rprintf s4 [Msg.internalNumber v]) ∧
      object_check_number s4 b = .ok (Rprintf s4 [Msg.internalNumber v]) ∧
      (∃ s5, object_modify_number s4 a w = .ok s5 ∧
        object_check_number s5 a = .ok (Rprintf s5 [Msg.internalNumber w]) ∧
        object_check_number s5 b = .ok (Rprintf s5 [Msg.internalNumber v])) ∧
      (∃ s5, object_modify_number s4 b w = .ok s5 ∧
        object_check_number s5 b = .ok (Rprintf s5 [Msg.internalNumber w]) ∧
        object_check_number s5 a = .ok (Rprintf s5 [Msg.internalNumber v])) := by
  have b1 := bound_after_new s { number := 0 } Msg.createdAnew
  have b2 := bound_after_modify _ _ _ _ _ v b1
  have b3 := bound_Rprintf _ _ _ _ _ [Msg.serialized] b2
  have b4 := bound_new_other _ _ _ _ _ { number := v } Msg.deserialized b3
  have b5 := bound_after_new
    (Rprintf ((s.with_new { number := 0 } Msg.createdAnew).with_number s.heap.length v)
      [Msg.serialized]) { number := v } Msg.deserialized
  have hl : 4 ≤ (int_repr bo v).length := by rw [int_repr_length]
  have hd := deserialize_eq bo
    (Rprintf ((s.with_new { number := 0 } Msg.createdAnew).with_number s.heap.length v)
      [Msg.serialized]) (int_repr bo v) hl
  rw [int_of_repr_int_repr bo v hv] at hd
  have hne : s.heap.length ≠
      (Rprintf ((s.with_new { number := 0 } Msg.createdAnew).with_number s.heap.length v)
        [Msg.serialized]).heap.length := by
    simp [Rprintf, RState.with_new, RState.with_number]
  refine ⟨_, _, create_eq s, check_number_eq _ _ _ _ _ b1,
    _, modify_number_eq _ _ _ _ _ v b1,
    _, _, serialized_state_eq bo _ _ _ _ _ b2, int_repr_length bo v,
    check_number_eq _ _ _ _ _ b3,
    _, _, hd, ?_, _, _, _, _, b4, b5, ?_, hne, ?_, ?_, check_number_eq _ _ _ _ _ b4,
    check_number_eq _ _ _ _ _ b5, ?_, ?_⟩
  · simp [Rprintf, RState.with_new, RState.with_number]
  · simp [Rprintf, RState.with_new, RState.with_number]
  · simp [Rprintf, RState.with_new, RState.with_number]
  · simp [Rprintf, RState.with_new, RState.with_number]
  · refine ⟨_, modify_number_eq _ _ _ _ _ w b4, ?_, ?_⟩
    · exact check_number_eq _ _ _ _ _ (bound_after_modify _ _ _ _ _ w b4)
    · exact check_number_eq _ _ _ _ _ (bound_number_other _ _ _ _ _ _ w b5 hne)
  · refine ⟨_, modify_number_eq _ _ _ _ _ w b5, ?_, ?_⟩
    · exact check_number_eq _ _ _ _ _ (bound_after_modify _ _ _ _ _ w b5)
    · exact check_number_eq _ _ _ _ _ (bound_number_other _ _ _ _ _ _ w b4 hne.symm)

/-- Witness of C8 from the empty session, with `v = 42` and `w = 7`. -/
theorem C8_adapter_scenario_witness :
    ∃ a s1, create_alrepped_cpp_object RState.empty = .ok (a, s1) ∧
      object_check_number s1 a = .ok (Rprintf s1 [Msg.internalNumber 0]) ∧
    ∃ s2, object_modify_number s1 a 42 = .ok s2 ∧
    ∃ R_state s3, generate_serialized_state ByteOrder.little s2 a = .ok (R_state, s3) ∧
      R_state.length = 4 ∧
      object_check_number s3 a = .ok (Rprintf s3 [Msg.internalNumber 42]) ∧
    ∃ b s4, deserialize_altrepped_object ByteOrder.little s3 R_state = .ok (b, s4) ∧
      b ≠ a ∧
    ∃ ha pa hb pb, Bound s4 a ha pa { number := 42 } ∧ Bound s4 b hb pb { number := 42 } ∧
      ha ≠ hb ∧ pa ≠ pb ∧ s3.extptrs[hb]? = none ∧ s3.heap[pb]? = none ∧
      object_check_number s4 a = .ok (Rprintf s4 [Msg.internalNumber 42]) ∧
      object_check_number s4 b = .ok (Rprintf s4 [Msg.internalNumber 42]) ∧
      (∃ s5, object_modify_number s4 a 7 = .ok s5 ∧
        object_check_number s5 a = .ok (Rprintf s5 [Msg.internalNumber 7]) ∧
        object_check_number s5 b = .ok (Rprintf s5 [Msg.internalNumber 42])) ∧
      (∃ s5, object_modify_number s4 b 7 = .ok s5 ∧
        object_check_number s5 b = .ok (Rprintf s5 [Msg.internalNumber 7]) ∧
        object_check_number s5 a = .ok (Rprintf s5 [Msg.internalNumber 42])) :=
  C8_adapter_scenario ByteOrder.little RState.empty 42 7 (by decide)

/-! ## Ownership in reachable sessions -/

theorem wf_empty : WellFormed RState.empty := by
  refine ⟨rfl, rfl, ?_⟩
  intro p hp
  simp [RState.empty] at hp

theorem wf_extptrs_length (s : RState) (hw : WellFormed s) :
    s.extptrs.length = s.heap.length := by
  rw [hw.1]; simp

theorem wf_with_new (s : RState) (obj : CustomCppClass) (msg : Msg) (hw : WellFormed s) :
    WellFormed (s.with_new obj msg) := by
  have hlen := wf_extptrs_length s hw
  obtain ⟨h1, h2, h3⟩ := hw
  refine ⟨?_, ?_, ?_⟩
  · show s.extptrs ++ _ = List.map _ (List.range (s.heap ++ _).length)
    rw [List.length_append, List.length_singleton, List.range_succ, List.map_append, ← h1]
    rfl
  · show s.finalizers ++ _ = List.map _ (List.range (s.heap ++ _).length)
    rw [List.length_append, List.length_singleton, List.range_succ, List.map_append, ← h2,
      hlen]
    rfl
  · intro p hp
    have hp1 : p < s.heap.length + 1 := by
      simpa [RState.with_new] using hp
    show ∃ o, (s.heap ++ [Cell.live obj])[p]? = _
    by_cases hlt : p < s.heap.length
    · obtain ⟨o, ho⟩ := h3 p hlt
      exact ⟨o, by rw [List.getElem?_append_left hlt]; exact ho⟩
    · have hpe : p = s.heap.length := by omega
      exact ⟨obj, by rw [hpe]; simp⟩

theorem wf_with_number (s : RState) (q : Nat) (v : Int) (hw : WellFormed s) :
    WellFormed (s.with_number q v) := by
  obtain ⟨h1, h2, h3⟩ := hw
  refine ⟨?_, ?_, ?_⟩
  · show s.extptrs = List.map _ (List.range (s.heap.set q _).length)
    rw [List.length_set]; exact h1
  · show s.finalizers = List.map _ (List.range (s.heap.set q _).length)
    rw [List.length_set]; exact h2
  · intro p hp
    have hp1 : p < s.heap.length := by
      simpa [RState.with_number] using hp
    show ∃ o, (s.heap.set q _)[p]? = _
    by_cases hq : q = p
    · subst hq
      exact ⟨{ number := v }, by simp [List.getElem?_set_self hp1]⟩
    · obtain ⟨o, ho⟩ := h3 p hp1
      exact ⟨o, by rw [List.getElem?_set_ne hq]; exact ho⟩

theorem wf_of_same (s s1 : RState) (hw : WellFormed s) (hh : s1.heap = s.heap)
    (he : s1.extptrs = s.extptrs) (hf : s1.finalizers = s.finalizers) : WellFormed s1 := by
  unfold WellFormed
  rw [hh, he, hf]
  exact hw

theorem modify_ok_inv (s s1 : RState) (a : Nat) (v : Int)
    (hok : object_modify_number s a v = .ok s1) :
    ∃ p, s1 = s.with_number p v := by
  unfold object_modify_number R_altrep_data1 R_ExternalPtrAddr at hok
  cases ha : s.altreps[a]? with
  | none => simp [ha, bind, Except.bind] at hok
  | some x =>
    cases he : s.extptrs[x.data1]? with
    | none => simp [ha, he, bind, Except.bind] at hok
    | some e =>
      cases hp : e.addr with
      | none => simp [ha, he, hp, deref, bind, Except.bind] at hok
      | some p =>
        cases hc : s.heap[p]? with
        | none => simp [ha, he, hp, hc, deref, bind, Except.bind] at hok
        | some c =>
          cases c with
          | freed => simp [ha, he, hp, hc, deref, bind, Except.bind] at hok
          | live obj =>
            refine ⟨p, ?_⟩
            simp [ha, he, hp, hc, deref, store, Rprintf, CustomCppClass.modify_number, bind,
              Except.bind] at hok
            rw [← hok]; rfl

theorem serialize_ok_inv (bo : ByteOrder) (s s1 : RState) (a : Nat) (R_state : List Nat)
    (hok : generate_serialized_state bo s a = .ok (R_state, s1)) :
    s1.heap = s.heap ∧ s1.extptrs = s.extptrs ∧ s1.finalizers = s.finalizers := by
  unfold generate_serialized_state at hok
  cases h1 : R_altrep_data1 s a with
  | error e => simp [h1, bind, Except.bind] at hok
  | ok x =>
    cases h2 : R_ExternalPtrAddr s x with
    | error e => simp [h1, h2, bind, Except.bind] at hok
    | ok q =>
      cases h3 : deref s q with
      | error e => simp [h1, h2, h3, bind, Except.bind] at hok
      | ok obj =>
        cases h4 : obj.serialize_to_char bo (Rf_allocVector_RAW obj.get_serialized_size) with
        | error e => simp [h1, h2, h3, h4, bind, Except.bind] at hok
        | ok r =>
          simp [h1, h2, h3, h4, bind, Except.bind, pure, Except.pure] at hok
          rw [← hok.2]
          exact ⟨rfl, rfl, rfl⟩

theorem duplicate_shallow_ok_inv (s s1 : RState) (a b : Nat)
    (hok : duplicate_altrepped_object s a false = .ok (b, s1)) :
    s1.heap = s.heap ∧ s1.extptrs = s.extptrs ∧ s1.finalizers = s.finalizers := by
  cases ha : s.altreps[a]? with
  | none =>
    simp [duplicate_altrepped_object, R_altrep_data1, Rprintf, ha, bind, Except.bind] at hok
  | some x =>
    rw [duplicate_shallow_eq s a x.data1 ha] at hok
    simp at hok
    rw [← hok.2]
    exact ⟨rfl, rfl, rfl⟩

theorem deserialize_ok_inv (bo : ByteOrder) (s s1 : RState) (a : Nat) (R_state : List Nat)
    (hok : deserialize_altrepped_object bo s R_state = .ok (a, s1)) :
    s1 = s.with_new { number := int_of_repr bo R_state } Msg.deserialized := by
  by_cases hl : R_state.length < 4
  · rw [deserialize_short bo s R_state hl] at hok
    cases hok
  · rw [deserialize_eq bo s R_state (by omega)] at hok
    simp at hok
    exact hok.2.symm

theorem reachable_wf (bo : ByteOrder) (s : RState) (hr : Reachable bo s) : WellFormed s := by
  induction hr with
  | empty => exact wf_empty
  | create _ hok ih =>
    rw [create_eq] at hok
    simp at hok
    rw [← hok.2]
    exact wf_with_new _ _ _ ih
  | deserialize R_state _ hok ih =>
    rw [deserialize_ok_inv bo _ _ _ _ hok]
    exact wf_with_new _ _ _ ih
  | duplicate_shallow a _ hok ih =>
    obtain ⟨h1, h2, h3⟩ := duplicate_shallow_ok_inv _ _ _ _ hok
    exact wf_of_same _ _ ih h1 h2 h3
  | modify a v _ hok ih =>
    obtain ⟨p, hp⟩ := modify_ok_inv _ _ _ _ hok
    rw [hp]
    exact wf_with_number _ _ _ ih
  | serialize a _ hok ih =>
    obtain ⟨h1, h2, h3⟩ := serialize_ok_inv bo _ _ _ _ hok
    exact wf_of_same _ _ ih h1 h2 h3

theorem wf_extptr_lookup (s : RState) (h p : Nat) (hw : WellFormed s)
    (he : s.extptrs[h]? = some (ExtPtr.mk (some p))) : h = p ∧ p < s.heap.length := by
  have hlt : h < s.heap.length := by
    have := getElem?_lt_of_eq_some _ _ _ he
    rwa [wf_extptrs_length s hw] at this
  rw [hw.1] at he
  simp [List.getElem?_map, List.getElem?_range hlt] at he
  omega

theorem wf_extptr_at (n h : Nat) (hh : h < n) :
    ((List.range n).map (fun i => ExtPtr.mk (some i)))[h]? = some (ExtPtr.mk (some h)) := by
  simp [List.getElem?_map, List.getElem?_range hh]

theorem registrations_none (n h : Nat) (hh : n ≤ h) :
    ((List.range n).map (fun i => (i, CFinalizer.delete_cpp_object))).filter
      (fun r => r.1 = h) = [] := by
  rw [List.filter_eq_nil_iff]
  intro r hr
  simp only [List.mem_map, List.mem_range] at hr
  obtain ⟨i, hi, rfl⟩ := hr
  simp
  omega

theorem registrations_one (n h : Nat) (hh : h < n) :
    ((List.range n).map (fun i => (i, CFinalizer.delete_cpp_object))).filter
      (fun r => r.1 = h) = [(h, CFinalizer.delete_cpp_object)] := by
  induction n with
  | zero => omega
  | succ n ih =>
    rw [List.range_succ, List.map_append, List.filter_append]
    by_cases hlt : h < n
    · rw [ih hlt]
      have hne : n ≠ h := by omega
      simp [hne]
    · have hn : h = n := by omega
      subst hn
      rw [registrations_none h h (Nat.le_refl h)]
      simp

theorem finalizers_of_eq (s : RState) (n h : Nat)
    (hf : s.finalizers = (List.range n).map (fun i => (i, CFinalizer.delete_cpp_object)))
    (hh : h < n) : finalizers_of s h = [CFinalizer.delete_cpp_object] := by
  unfold finalizers_of
  rw [hf, registrations_one n h hh]
  rfl

theorem finalize_one (s : RState) (n h : Nat) (obj : CustomCppClass)
    (he : s.extptrs = (List.range n).map (fun i => ExtPtr.mk (some i)))
    (hf : s.finalizers = (List.range n).map (fun i => (i, CFinalizer.delete_cpp_object)))
    (hh : h < n) (hp : s.heap[h]? = some (Cell.live obj)) :
    finalize s h = .ok (s.with_freed h) := by
  have hx : s.extptrs[h]? = some (ExtPtr.mk (some h)) := by
    rw [he]; exact wf_extptr_at n h hh
  unfold finalize
  rw [finalizers_of_eq s n h hf hh]
  simp [run_CFinalizer, delete_eq s h h obj hx hp, bind, Except.bind, pure, Except.pure]

theorem finalize_all_spec (n : Nat) :
    ∀ (hs : List Nat) (t : RState), hs.Nodup →
      t.extptrs = (List.range n).map (fun i => ExtPtr.mk (some i)) →
      t.finalizers = (List.range n).map (fun i => (i, CFinalizer.delete_cpp_object)) →
      t.heap.length = n →
      (∀ h ∈ hs, ∃ obj, t.heap[h]? = some (Cell.live obj)) →
      ∃ t1, finalize_all t hs = .ok t1 ∧
        destructions t1 = destructions t + hs.length ∧
        t1.heap.length = n ∧
        (∀ p, t1.heap[p]? = if p ∈ hs then some Cell.freed else t.heap[p]?) := by
  intro hs
  induction hs with
  | nil =>
    intro t _ _ _ hn _
    exact ⟨t, rfl, rfl, hn, by intro p; simp⟩
  | cons h tl ih =>
    intro t hnd he hf hn hlive
    obtain ⟨obj, hobj⟩ := hlive h (List.mem_cons_self h tl)
    have hh : h < n := by
      rw [← hn]; exact getElem?_lt_of_eq_some _ _ _ hobj
    have hstep := finalize_one t n h obj he hf hh hobj
    have hnd1 := List.nodup_cons.mp hnd
    have hlive1 : ∀ k ∈ tl, ∃ o, (t.with_freed h).heap[k]? = some (Cell.live o) := by
      intro k hk
      obtain ⟨o, ho⟩ := hlive k (List.mem_cons_of_mem h hk)
      have hne : h ≠ k := by
        intro hc; subst hc; exact hnd1.1 hk
      refine ⟨o, ?_⟩
      show (t.heap.set h Cell.freed)[k]? = _
      rw [List.getElem?_set_ne hne]; exact ho
    have hlen1 : (t.with_freed h).heap.length = n := by
      show (t.heap.set h Cell.freed).length = n
      rw [List.length_set]; exact hn
    obtain ⟨t1, h1, h2, h3, h4⟩ := ih (t.with_freed h) hnd1.2 he hf hlen1 hlive1
    refine ⟨t1, ?_, ?_, h3, ?_⟩
    · show List.foldlM finalize t (h :: tl) = _
      rw [List.foldlM_cons, hstep]
      exact h1
    · rw [h2, destructions_after_delete, List.length_cons]; omega
    · intro p
      rw [h4 p]
      by_cases hpt : p ∈ tl
      · simp [hpt]
      · by_cases hph : p = h
        · subst hph
          have : (t.with_freed p).heap[p]? = some Cell.freed :=
            getElem?_set_self_of_some _ _ _ _ hobj
          simp [hpt, this]
        · have hne : h ≠ p := fun hc => hph hc.symm
          have : (t.with_freed h).heap[p]? = t.heap[p]? := by
            show (t.heap.set h Cell.freed)[p]? = _
            rw [List.getElem?_set_ne hne]
          simp [hpt, hph, this]

theorem wf_single_owner (s : RState) (hw : WellFormed s) : SingleOwner s := by
  intro h1 h2 p obj hne e1 e2 _
  have a1 := (wf_extptr_lookup s h1 p hw e1).1
  have a2 := (wf_extptr_lookup s h2 p hw e2).1
  omega

theorem wf_single_finalizer (s : RState) (hw : WellFormed s) : SingleFinalizer s := by
  intro h hh
  rw [wf_extptrs_length s hw] at hh
  exact finalizers_of_eq s _ h hw.2.1 hh

theorem wf_destroyed_at_most_once (s : RState) (hw : WellFormed s) :
    DestroyedAtMostOnce s := by
  intro hs hnd hin
  have hlen := wf_extptrs_length s hw
  have hlive : ∀ h ∈ hs, ∃ obj, s.heap[h]? = some (Cell.live obj) := by
    intro h hh
    exact hw.2.2 h (by rw [← hlen]; exact hin h hh)
  obtain ⟨s1, h1, h2, h3, h4⟩ := finalize_all_spec s.heap.length hs s hnd hw.1 hw.2.1 rfl hlive
  refine ⟨s1, h1, h2, h3, ?_⟩
  intro p
  rw [h4 p]
  constructor
  · intro hp
    by_cases hm : p ∈ hs
    · right
      refine ⟨p, hm, ?_⟩
      rw [hw.1]
      exact wf_extptr_at _ p (by rw [← hlen]; exact hin p hm)
    · left
      simpa [hm] using hp
  · intro hp
    rcases hp with hp | ⟨h, hm, he⟩
    · by_cases hm : p ∈ hs
      · simp [hm]
      · simpa [hm] using hp
    · have := (wf_extptr_lookup s h p hw he).1
      subst this
      simp [hm]

/-- C10. In every session reached from the empty one by creation,
deserialization, shallow duplication, modification and serialization: no two
distinct handles hold the address of the same live object; every handle has
exactly one registered finalizer, `delete_cpp_object`; a shallow duplication
adds no handle and registers no finalizer; and when the host finalizes
distinct handles, every call returns, one destructor runs per finalized handle
and the freed objects are those of the finalized handles, so that no object is
destroyed twice. -/
theorem C10_single_owner_single_finalizer (bo : ByteOrder) (s : RState)
    (hr : Reachable bo s) :
    SingleOwner s ∧ SingleFinalizer s ∧
    (∀ a b s1, duplicate_altrepped_object s a false = .ok (b, s1) →
      s1.extptrs = s.extptrs ∧ s1.finalizers = s.finalizers ∧ s1.heap = s.heap) ∧
    DestroyedAtMostOnce s := by
  have hw := reachable_wf bo s hr
  refine ⟨wf_single_owner s hw, wf_single_finalizer s hw, ?_, wf_destroyed_at_most_once s hw⟩
  intro a b s1 hok
  obtain ⟨h1, h2, h3⟩ := duplicate_shallow_ok_inv s s1 a b hok
  exact ⟨h2, h3, h1⟩

/-- Witness of C10 on the session after a creation, a shallow duplication and
a second creation: two handles, three adapters. -/
theorem C10_single_owner_single_finalizer_witness :
    Reachable ByteOrder.little s_pair ∧
    SingleOwner s_pair ∧ SingleFinalizer s_pair ∧
    (∀ a b s1, duplicate_altrepped_object s_pair a false = .ok (b, s1) →
      s1.extptrs = s_pair.extptrs ∧ s1.finalizers = s_pair.finalizers ∧
        s1.heap = s_pair.heap) ∧
    DestroyedAtMostOnce s_pair :=
  have hr : Reachable ByteOrder.little s_pair :=
    @Reachable.create ByteOrder.little s_aliased s_pair 2
      (@Reachable.duplicate_shallow ByteOrder.little s_created s_aliased 1 0
        (@Reachable.create ByteOrder.little RState.empty s_created 0 Reachable.empty
          (by decide))
        (by decide))
      (by decide)
  ⟨hr, C10_single_owner_single_finalizer ByteOrder.little s_pair hr⟩

end AltreppedPointer
